import Mathlib

/-!
Verification of the crystal-structure geometry engine of the
materials-explorer repository.

The engine lives in two frontend modules:

* `src/frontend/src/components/ExplorationDebug.tsx`, component
  `ImprovedCrystalStructure3D`: derives basis vectors from the six lattice
  parameters, expands fractional sites over an integer translation grid,
  infers bonds by a pairwise distance heuristic, and builds the unit-cell
  outline.  Embedded below as `latticeBasis`, `expandAtoms`, `inferBonds`,
  `improvedUnitCellVertices` and `processedStructure`.

* `src/frontend/src/components/Structure3D/atomicData.ts`, component
  `CrystalStructure3D` (`Scene`): expands sites using the externally
  supplied cartesian coordinates over a fixed 0..2 translation grid with a
  boundary filter, and computes camera-framing bounds.  Embedded below as
  `sceneExpandedSites`, `sceneCenterBounds` and `sceneUnitCellVertices`.

JavaScript numbers are IEEE doubles; the embedding idealises them: structure
records carry exact rationals (the JSON payload), and the geometric
computations that use trigonometry and square roots are carried out over ℝ.
JavaScript's arithmetic never throws; accordingly every embedded function is
total, mirroring the absence of any `throw` in the source.
-/

namespace MatExp

/-- Cartesian 3-vector over ℝ (THREE.Vector3 in the source). -/
structure Vec3 where
  x : ℝ
  y : ℝ
  z : ℝ

/-- Componentwise sum (THREE `Vector3.add`). -/
def Vec3.add (u v : Vec3) : Vec3 :=
  ⟨u.x + v.x, u.y + v.y, u.z + v.z⟩

/-- THREE `Vector3.addScaledVector`: `u + v * s` componentwise. -/
def Vec3.addScaled (u v : Vec3) (s : ℝ) : Vec3 :=
  ⟨u.x + v.x * s, u.y + v.y * s, u.z + v.z * s⟩

/-- Euclidean distance (THREE `Vector3.distanceTo`). -/
noncomputable def dist3 (u v : Vec3) : ℝ :=
  Real.sqrt ((u.x - v.x) ^ 2 + (u.y - v.y) ^ 2 + (u.z - v.z) ^ 2)

/-- Entry of the element-property table
(`ElementData` in `Structure3D/atomicData.ts`). -/
structure ElementData where
  color : String
  radius : ℚ
  name : String

/-- The string-indexed element table `ATOMIC_DATA` of
`Structure3D/atomicData.ts`, embedded as an association list. -/
def ATOMIC_DATA : List (String × ElementData) :=
  [("H", ⟨"#FFFFFF", 0.31, "Hydrogen"⟩),
   ("He", ⟨"#D9FFFF", 0.28, "Helium"⟩),
   ("Li", ⟨"#CC80FF", 1.28, "Lithium"⟩),
   ("Be", ⟨"#C2FF00", 0.96, "Beryllium"⟩),
   ("B", ⟨"#FFB5B5", 0.84, "Boron"⟩),
   ("C", ⟨"#909090", 0.76, "Carbon"⟩),
   ("N", ⟨"#3050F8", 0.71, "Nitrogen"⟩),
   ("O", ⟨"#FF0D0D", 0.66, "Oxygen"⟩),
   ("F", ⟨"#90E050", 0.57, "Fluorine"⟩),
   ("Ne", ⟨"#B3E3F5", 0.58, "Neon"⟩),
   ("Na", ⟨"#AB5CF2", 1.66, "Sodium"⟩),
   ("Mg", ⟨"#8AFF00", 1.41, "Magnesium"⟩),
   ("Al", ⟨"#BFA6A6", 1.21, "Aluminum"⟩),
   ("Si", ⟨"#F0C8A0", 1.11, "Silicon"⟩),
   ("P", ⟨"#FF8000", 1.07, "Phosphorus"⟩),
   ("S", ⟨"#FFFF30", 1.05, "Sulfur"⟩),
   ("Cl", ⟨"#1FF01F", 1.02, "Chlorine"⟩),
   ("Ar", ⟨"#80D1E3", 1.06, "Argon"⟩),
   ("K", ⟨"#8F40D4", 2.03, "Potassium"⟩),
   ("Ca", ⟨"#3DFF00", 1.76, "Calcium"⟩),
   ("Sc", ⟨"#E6E6E6", 1.70, "Scandium"⟩),
   ("Ti", ⟨"#BFC2C7", 1.60, "Titanium"⟩),
   ("V", ⟨"#A6A6AB", 1.53, "Vanadium"⟩),
   ("Cr", ⟨"#8A99C7", 1.39, "Chromium"⟩),
   ("Mn", ⟨"#9C7AC7", 1.39, "Manganese"⟩),
   ("Fe", ⟨"#4169E1", 1.32, "Iron"⟩),
   ("Co", ⟨"#F090A0", 1.26, "Cobalt"⟩),
   ("Ni", ⟨"#50D050", 1.24, "Nickel"⟩),
   ("Cu", ⟨"#C88033", 1.32, "Copper"⟩),
   ("Zn", ⟨"#7D80B0", 1.22, "Zinc"⟩),
   ("Ga", ⟨"#C28F8F", 1.22, "Gallium"⟩),
   ("Ge", ⟨"#668F8F", 1.20, "Germanium"⟩),
   ("As", ⟨"#BD80E3", 1.19, "Arsenic"⟩),
   ("Se", ⟨"#FFA100", 1.20, "Selenium"⟩),
   ("Br", ⟨"#A62929", 1.20, "Bromine"⟩),
   ("Kr", ⟨"#5CB8D1", 1.16, "Krypton"⟩),
   ("Rb", ⟨"#702EB0", 2.20, "Rubidium"⟩),
   ("Sr", ⟨"#00FF00", 1.95, "Strontium"⟩),
   ("Y", ⟨"#94FFFF", 1.90, "Yttrium"⟩),
   ("Zr", ⟨"#94E0E0", 1.75, "Zirconium"⟩),
   ("Nb", ⟨"#73C2C9", 1.64, "Niobium"⟩),
   ("Mo", ⟨"#54B5B5", 1.54, "Molybdenum"⟩),
   ("La", ⟨"#70D4FF", 2.07, "Lanthanum"⟩),
   ("Ce", ⟨"#FFFFC7", 2.04, "Cerium"⟩),
   ("Nd", ⟨"#C7FFC7", 2.01, "Neodymium"⟩),
   ("X", ⟨"#FF1493", 1.0, "Unknown"⟩)]

/-- The designated fallback entry `ATOMIC_DATA.X` for unknown elements. -/
def xData : ElementData :=
  ⟨"#FF1493", 1.0, "Unknown"⟩

/-- The carbon entry `ATOMIC_DATA.C`, used as the fallback by
`ImprovedCrystalStructure3D` ("Default to carbon if unknown"). -/
def cData : ElementData :=
  ⟨"#909090", 0.76, "Carbon"⟩

/-- JavaScript `String.prototype.trim`, embedded structurally over the
character list (Lean's own `String.trim` is defined through substring
primitives that the kernel cannot reduce). -/
def trimStr (s : String) : String :=
  ⟨((s.data.dropWhile Char.isWhitespace).reverse.dropWhile Char.isWhitespace).reverse⟩

/-- Function `getElementData` of `Structure3D/atomicData.ts`:
trims the symbol and falls back to the `X` entry on a missed lookup. -/
def getElementData (symbol : String) : ElementData :=
  (ATOMIC_DATA.lookup (trimStr symbol)).getD xData

/-- Element lookup of `ImprovedCrystalStructure3D` in `ExplorationDebug.tsx`:
the expression `ATOMIC_DATA[element] || ATOMIC_DATA['C']` (no trimming,
carbon fallback). -/
def atomDataFor (element : String) : ElementData :=
  (ATOMIC_DATA.lookup element).getD cData

/-- Row-wise 3×3 lattice matrix (`lattice.matrix` of the API type). -/
structure Mat3 where
  row0 : ℚ × ℚ × ℚ
  row1 : ℚ × ℚ × ℚ
  row2 : ℚ × ℚ × ℚ

/-- Lattice record of `types/api.ts` (numeric payload as exact rationals;
the `id` field is irrelevant to the geometry and omitted). -/
structure Lattice where
  a : ℚ
  b : ℚ
  c : ℚ
  alpha : ℚ
  beta : ℚ
  gamma : ℚ
  volume : ℚ
  matrix : Mat3

/-- Site record of `types/api.ts` (`id`, `site_index`, `label` omitted). -/
structure Site where
  species : String
  frac_coords : ℚ × ℚ × ℚ
  cart_coords : ℚ × ℚ × ℚ
  occupancy : ℚ

/-- Structure record of `types/api.ts` (fields not read by the geometry
engine omitted). -/
structure Structure where
  lattice : Lattice
  sites : List Site

/-!
The `ImprovedCrystalStructure3D.processedStructure` pipeline of
`ExplorationDebug.tsx` (lines 269-392).
-/

/-- Basis-vector computation of `processedStructure` (lines 278-298):
angles are converted to radians and the standard crystallographic
convention is applied.  There is no guard: `sinGamma = 0` and a negative
radicand are fed straight into the division and the square root. -/
noncomputable def latticeBasis (l : Lattice) : Vec3 × Vec3 × Vec3 :=
  let alphaRad := (l.alpha : ℝ) * Real.pi / 180
  let betaRad := (l.beta : ℝ) * Real.pi / 180
  let gammaRad := (l.gamma : ℝ) * Real.pi / 180
  let cosAlpha := Real.cos alphaRad
  let cosBeta := Real.cos betaRad
  let cosGamma := Real.cos gammaRad
  let sinGamma := Real.sin gammaRad
  let aVec : Vec3 := ⟨(l.a : ℝ), 0, 0⟩
  let bVec : Vec3 := ⟨(l.b : ℝ) * cosGamma, (l.b : ℝ) * sinGamma, 0⟩
  let cVec : Vec3 :=
    ⟨(l.c : ℝ) * cosBeta,
     (l.c : ℝ) * ((cosAlpha - cosBeta * cosGamma) / sinGamma),
     (l.c : ℝ) *
       Real.sqrt (1 - cosBeta ^ 2 - ((cosAlpha - cosBeta * cosGamma) / sinGamma) ^ 2)⟩
  (aVec, bVec, cVec)

/-- Expansion factor of `processedStructure` (lines 310-312):
`avgLatticeParam < 5 ? 2 : 1`. -/
def expansionSize (l : Lattice) : ℕ :=
  if (l.a + l.b + l.c) / 3 < 5 then 2 else 1

/-- A derived atom of the render model. -/
structure Atom where
  position : Vec3
  element : String
  radius : ℝ
  color : String

/-- Atom built for one (site, translation) pair (lines 317-342): the
fractional coordinate is translated by `(i,j,k)`, converted to cartesian
through `addScaledVector`, and the element data is looked up with the
carbon fallback; the stored radius is scaled by 0.3. -/
noncomputable def siteAtom (aV bV cV : Vec3) (i j k : ℕ) (site : Site) : Atom :=
  let fracX : ℝ := (site.frac_coords.1 : ℝ) + (i : ℝ)
  let fracY : ℝ := (site.frac_coords.2.1 : ℝ) + (j : ℝ)
  let fracZ : ℝ := (site.frac_coords.2.2 : ℝ) + (k : ℝ)
  let position := (((⟨0, 0, 0⟩ : Vec3).addScaled aV fracX).addScaled bV fracY).addScaled cV fracZ
  let atomData := atomDataFor site.species
  ⟨position, site.species, (atomData.radius : ℝ) * 0.3, atomData.color⟩

/-- The triple translation loop of `processedStructure` (lines 314-345):
`for i, j, k in 0 ..< expansionSize`, every site is replicated with no
boundary filtering. -/
noncomputable def expandAtoms (aV bV cV : Vec3) (size : ℕ) (sites : List Site) : List Atom :=
  (List.range size).flatMap fun i =>
    (List.range size).flatMap fun j =>
      (List.range size).flatMap fun k =>
        sites.map (siteAtom aV bV cV i j k)

/-- Derived bond of the render model (`end` of the source is `endPos`
here, `end` being reserved). -/
structure Bond where
  start : Vec3
  endPos : Vec3
  length : ℝ

/-- Index access `atoms[i]` of the bond loop; the loop only produces
in-range indices, so the default is immaterial. -/
noncomputable def atomAt (atoms : List Atom) (i : ℕ) : Atom :=
  atoms.getD i ⟨⟨0, 0, 0⟩, "", 0, ""⟩

/-- The visiting order of the double bond loop (lines 356-357):
all pairs `(i, j)` with `i < j < n`, `i` outermost. -/
def allPairs (n : ℕ) : List (ℕ × ℕ) :=
  (List.range n).flatMap fun i =>
    ((List.range n).filter fun j => decide (i < j)).map fun j => (i, j)

/-- Bond predicate of `processedStructure` (lines 354-364): the hard
window `0.1 < d < 3.0` and the covalent-radius test
`d < ((r_i + r_j) / 0.3) * 1.5` — the stored radii are unscaled by the
same 0.3 used when the atoms were built. -/
noncomputable def bondCond (atoms : List Atom) (i j : ℕ) : Prop :=
  let d := dist3 (atomAt atoms i).position (atomAt atoms j).position
  d < 3.0 ∧ 0.1 < d ∧ d < ((atomAt atoms i).radius + (atomAt atoms j).radius) / 0.3 * 1.5

noncomputable instance (atoms : List Atom) (i j : ℕ) : Decidable (bondCond atoms i j) := by
  unfold bondCond
  infer_instance

/-- Index pairs that pass the bond predicate, in loop order. -/
noncomputable def bondIndexPairs (atoms : List Atom) : List (ℕ × ℕ) :=
  (allPairs atoms.length).filter fun p => decide (bondCond atoms p.1 p.2)

/-- Bond record pushed for an accepted pair (lines 365-369). -/
noncomputable def mkBond (atoms : List Atom) (p : ℕ × ℕ) : Bond :=
  ⟨(atomAt atoms p.1).position, (atomAt atoms p.2).position,
   dist3 (atomAt atoms p.1).position (atomAt atoms p.2).position⟩

/-- Bond list of `processedStructure` (lines 347-373). -/
noncomputable def inferBonds (atoms : List Atom) : List Bond :=
  (bondIndexPairs atoms).map (mkBond atoms)

/-- Unit-cell vertex list of `processedStructure` (lines 375-387), in
source order: 0, a, a+b, b, c, a+c, a+b+c, b+c. -/
def improvedUnitCellVertices (aV bV cV : Vec3) : List Vec3 :=
  [⟨0, 0, 0⟩, aV, aV.add bV, bV, cV, aV.add cV, (aV.add bV).add cV, bV.add cV]

/-- Wireframe edge index pairs of `ImprovedCrystalStructure3D`
(lines 468-472). -/
def improvedUnitCellEdges : List (ℕ × ℕ) :=
  [(0, 1), (1, 2), (2, 3), (3, 0), (4, 5), (5, 6), (6, 7), (7, 4),
   (0, 4), (1, 5), (2, 6), (3, 7)]

/-- The render model returned by `processedStructure`. -/
structure ProcessedStructure where
  atoms : List Atom
  bonds : List Bond
  unitCellVertices : List Vec3

/-- The whole `processedStructure` memo of `ImprovedCrystalStructure3D`
(lines 269-392).  The early return for an absent `sites`/`lattice` field
cannot fire on a well-typed `Structure` (an empty `sites` array is truthy
in JavaScript) and is not modelled. -/
noncomputable def processedStructure (s : Structure) : ProcessedStructure :=
  let basis := latticeBasis s.lattice
  let atoms := expandAtoms basis.1 basis.2.1 basis.2.2 (expansionSize s.lattice) s.sites
  ⟨atoms, inferBonds atoms, improvedUnitCellVertices basis.1 basis.2.1 basis.2.2⟩

/-!
The `CrystalStructure3D` / `Scene` pipeline of `Structure3D/atomicData.ts`
(lines 340-505).
-/

/-- Element of the `expanded` array of `Scene.expandedSites` (the spread
copies the remaining site fields; only the ones the pipeline reads are
kept). -/
structure ExpandedSite where
  species : String
  frac_coords : ℚ × ℚ × ℚ
  cart_coords : ℚ × ℚ × ℚ

/-- Componentwise sum of number triples. -/
def add3 (u v : ℚ × ℚ × ℚ) : ℚ × ℚ × ℚ :=
  (u.1 + v.1, u.2.1 + v.2.1, u.2.2 + v.2.2)

/-- The `Scene.expandedSites` memo (lines 356-457): a fixed 0..2 inclusive
translation grid per axis; the replica's cartesian position is the
site's supplied `cart_coords` shifted by `(dx·a, dy·b, dz·c)`, kept only
when inside `[-0.1, 2·axis + 0.1]` on every axis. -/
def sceneExpandedSites (s : Structure) : List ExpandedSite :=
  if s.sites.length = 0 then []
  else
    (List.range 3).flatMap fun dx =>
      (List.range 3).flatMap fun dy =>
        (List.range 3).flatMap fun dz =>
          s.sites.filterMap fun site =>
            let newFrac : ℚ × ℚ × ℚ :=
              (site.frac_coords.1 + (dx : ℚ), site.frac_coords.2.1 + (dy : ℚ),
               site.frac_coords.2.2 + (dz : ℚ))
            let newCart : ℚ × ℚ × ℚ :=
              (site.cart_coords.1 + (dx : ℚ) * s.lattice.a,
               site.cart_coords.2.1 + (dy : ℚ) * s.lattice.b,
               site.cart_coords.2.2 + (dz : ℚ) * s.lattice.c)
            if -0.1 ≤ newCart.1 ∧ newCart.1 ≤ 2 * s.lattice.a + 0.1 ∧
                -0.1 ≤ newCart.2.1 ∧ newCart.2.1 ≤ 2 * s.lattice.b + 0.1 ∧
                -0.1 ≤ newCart.2.2 ∧ newCart.2.2 ≤ 2 * s.lattice.c + 0.1 then
              some ⟨site.species, newFrac, newCart⟩
            else none

/-- The `Scene` center/bounds memo (lines 460-505).  The source folds
`Math.min`/`Math.max` starting from `±Infinity` after an explicit
empty-list early return; over a nonempty list that is the same as folding
from the first element's coordinates, which is how it is written here. -/
def sceneCenterBounds (sites : List ExpandedSite) : (ℚ × ℚ × ℚ) × ℚ :=
  match sites with
  | [] => ((0, 0, 0), 10)
  | s0 :: rest =>
    let minX := rest.foldl (fun m t => min m t.cart_coords.1) s0.cart_coords.1
    let maxX := rest.foldl (fun m t => max m t.cart_coords.1) s0.cart_coords.1
    let minY := rest.foldl (fun m t => min m t.cart_coords.2.1) s0.cart_coords.2.1
    let maxY := rest.foldl (fun m t => max m t.cart_coords.2.1) s0.cart_coords.2.1
    let minZ := rest.foldl (fun m t => min m t.cart_coords.2.2) s0.cart_coords.2.2
    let maxZ := rest.foldl (fun m t => max m t.cart_coords.2.2) s0.cart_coords.2.2
    let rangeX := maxX - minX
    let rangeY := maxY - minY
    let rangeZ := maxZ - minZ
    let maxRange := max (max rangeX rangeY) rangeZ
    (((minX + maxX) / 2, (minY + maxY) / 2, (minZ + maxZ) / 2),
     max (maxRange * 1.5) 10)

/-- Vertex list of the `UnitCell` / `CenterUnitCell` components of
`Structure3D/atomicData.ts` (lines 245-338), in source order:
0, a, b, c, a+b, a+c, b+c, a+b+c — built from the supplied
`lattice.matrix` rows. -/
def sceneUnitCellVertices (m : Mat3) : List (ℚ × ℚ × ℚ) :=
  [(0, 0, 0), m.row0, m.row1, m.row2, add3 m.row0 m.row1, add3 m.row0 m.row2,
   add3 m.row1 m.row2, add3 (add3 m.row0 m.row1) m.row2]

/-- Edge index pairs of the `UnitCell` component (lines 263-269). -/
def sceneUnitCellEdges : List (ℕ × ℕ) :=
  [(0, 1), (0, 2), (0, 3), (1, 4), (1, 5), (2, 4), (2, 6), (3, 5), (3, 6),
   (4, 7), (5, 7), (6, 7)]

/-!
Helper lemmas.
-/

lemma rad_of_90 : (90 : ℝ) * Real.pi / 180 = Real.pi / 2 := by
  ring

lemma rad_of_120 : (120 : ℝ) * Real.pi / 180 = Real.pi - Real.pi / 3 := by
  ring

lemma rad_of_0 : (0 : ℝ) * Real.pi / 180 = 0 := by
  ring

lemma latticeBasis_cubic (a b c vol : ℚ) (m : Mat3) :
    latticeBasis ⟨a, b, c, 90, 90, 90, vol, m⟩ =
      (⟨(a : ℝ), 0, 0⟩, ⟨0, (b : ℝ), 0⟩, ⟨0, 0, (c : ℝ)⟩) := by
  unfold latticeBasis
  norm_num [rad_of_90, Real.cos_pi_div_two, Real.sin_pi_div_two, Real.sqrt_one]

lemma latticeBasis_oblique (a b c vol : ℚ) (m : Mat3) :
    latticeBasis ⟨a, b, c, 90, 90, 120, vol, m⟩ =
      (⟨(a : ℝ), 0, 0⟩, ⟨(b : ℝ) * -(1 / 2), (b : ℝ) * (Real.sqrt 3 / 2), 0⟩,
       ⟨0, 0, (c : ℝ)⟩) := by
  unfold latticeBasis
  norm_num [rad_of_90, rad_of_120, Real.cos_pi_div_two, Real.sin_pi_div_two,
    Real.cos_pi_sub, Real.sin_pi_sub, Real.cos_pi_div_three, Real.sin_pi_div_three,
    Real.sqrt_one]

lemma siteAtom_element (aV bV cV : Vec3) (i j k : ℕ) (site : Site) :
    (siteAtom aV bV cV i j k site).element = site.species := rfl

lemma siteAtom_radius (aV bV cV : Vec3) (i j k : ℕ) (site : Site) :
    (siteAtom aV bV cV i j k site).radius = ((atomDataFor site.species).radius : ℝ) * 0.3 := rfl

lemma siteAtom_color (aV bV cV : Vec3) (i j k : ℕ) (site : Site) :
    (siteAtom aV bV cV i j k site).color = (atomDataFor site.species).color := rfl

lemma expandAtoms_length (aV bV cV : Vec3) (size : ℕ) (sites : List Site) :
    (expandAtoms aV bV cV size sites).length = size ^ 3 * sites.length := by
  simp [expandAtoms, List.length_flatMap, Function.comp_def, List.map_const',
    List.sum_replicate, smul_eq_mul]
  ring

lemma mem_expandAtoms {aV bV cV : Vec3} {size : ℕ} {sites : List Site} {t : Atom}
    (h : t ∈ expandAtoms aV bV cV size sites) :
    ∃ site ∈ sites, ∃ i j k : ℕ,
      i < size ∧ j < size ∧ k < size ∧ t = siteAtom aV bV cV i j k site := by
  simp only [expandAtoms, List.mem_flatMap, List.mem_map, List.mem_range] at h
  obtain ⟨i, hi, j, hj, k, hk, site, hsite, rfl⟩ := h
  exact ⟨site, hsite, i, j, k, hi, hj, hk, rfl⟩

lemma expandAtoms_fallbackData {aV bV cV : Vec3} {size : ℕ} {sites : List Site} {t : Atom}
    (h : t ∈ expandAtoms aV bV cV size sites) :
    t.radius = ((atomDataFor t.element).radius : ℝ) * 0.3 ∧
      t.color = (atomDataFor t.element).color := by
  obtain ⟨site, _, i, j, k, _, _, _, rfl⟩ := mem_expandAtoms h
  exact ⟨rfl, rfl⟩

lemma mem_allPairs {n : ℕ} {p : ℕ × ℕ} : p ∈ allPairs n ↔ p.1 < p.2 ∧ p.2 < n := by
  obtain ⟨i, j⟩ := p
  simp only [allPairs, List.mem_flatMap, List.mem_map, List.mem_filter, List.mem_range,
    decide_eq_true_eq, Prod.mk.injEq]
  constructor
  · rintro ⟨a, _, b, ⟨hbn, hab⟩, rfl, rfl⟩
    exact ⟨hab, hbn⟩
  · rintro ⟨hij, hjn⟩
    exact ⟨i, hij.trans hjn, j, ⟨hjn, hij⟩, rfl, rfl⟩

lemma allPairs_nodup (n : ℕ) : (allPairs n).Nodup := by
  rw [allPairs, List.nodup_flatMap]
  constructor
  · intro i _
    refine List.Nodup.map ?_ ((List.nodup_range n).filter _)
    intro a b hab
    simpa using congrArg Prod.snd hab
  · refine (List.nodup_range n).imp ?_
    intro a b hab
    intro x hxa hxb
    simp only [List.mem_map, List.mem_filter] at hxa hxb
    obtain ⟨j1, _, rfl⟩ := hxa
    obtain ⟨j2, _, h2⟩ := hxb
    exact hab (congrArg Prod.fst h2).symm

lemma dist3_comm (u v : Vec3) : dist3 u v = dist3 v u := by
  unfold dist3
  congr 1
  ring

lemma dist3_self (u : Vec3) : dist3 u u = 0 := by
  unfold dist3
  simp

lemma foldl_min_mem (xs : List ℚ) (x : ℚ) : xs.foldl min x ∈ x :: xs := by
  induction xs generalizing x with
  | nil => simp
  | cons y ys ih =>
    rw [List.foldl_cons]
    rcases List.mem_cons.mp (ih (min x y)) with h1 | h1
    · rcases min_choice x y with hm | hm
      · rw [h1, hm]
        exact List.mem_cons_self _ _
      · rw [h1, hm]
        exact List.mem_cons_of_mem _ (List.mem_cons_self _ _)
    · exact List.mem_cons_of_mem _ (List.mem_cons_of_mem _ h1)

lemma foldl_min_le (xs : List ℚ) (x : ℚ) : ∀ q ∈ x :: xs, xs.foldl min x ≤ q := by
  induction xs generalizing x with
  | nil =>
    intro q hq
    simp only [List.mem_singleton] at hq
    simp [hq]
  | cons y ys ih =>
    intro q hq
    rw [List.foldl_cons]
    rcases List.mem_cons.mp hq with rfl | hq1
    · exact le_trans (ih (min q y) _ (List.mem_cons_self _ _)) (min_le_left _ _)
    · rcases List.mem_cons.mp hq1 with rfl | hq2
      · exact le_trans (ih (min x q) _ (List.mem_cons_self _ _)) (min_le_right _ _)
      · exact ih (min x y) q (List.mem_cons_of_mem _ hq2)

lemma foldl_max_mem (xs : List ℚ) (x : ℚ) : xs.foldl max x ∈ x :: xs := by
  induction xs generalizing x with
  | nil => simp
  | cons y ys ih =>
    rw [List.foldl_cons]
    rcases List.mem_cons.mp (ih (max x y)) with h1 | h1
    · rcases max_choice x y with hm | hm
      · rw [h1, hm]
        exact List.mem_cons_self _ _
      · rw [h1, hm]
        exact List.mem_cons_of_mem _ (List.mem_cons_self _ _)
    · exact List.mem_cons_of_mem _ (List.mem_cons_of_mem _ h1)

lemma foldl_max_ge (xs : List ℚ) (x : ℚ) : ∀ q ∈ x :: xs, q ≤ xs.foldl max x := by
  induction xs generalizing x with
  | nil =>
    intro q hq
    simp only [List.mem_singleton] at hq
    simp [hq]
  | cons y ys ih =>
    intro q hq
    rw [List.foldl_cons]
    rcases List.mem_cons.mp hq with rfl | hq1
    · exact le_trans (le_max_left _ _) (ih (max q y) _ (List.mem_cons_self _ _))
    · rcases List.mem_cons.mp hq1 with rfl | hq2
      · exact le_trans (le_max_right _ _) (ih (max x q) _ (List.mem_cons_self _ _))
      · exact ih (max x y) q (List.mem_cons_of_mem _ hq2)

/-!
Concrete inputs used by witnesses and counterexamples.
-/

/-- Diagonal matrix rows for a cubic cell of edge 6. -/
def matW : Mat3 :=
  ⟨(6, 0, 0), (0, 6, 0), (0, 0, 6)⟩

/-- Silicon site at the origin. -/
def siSite0 : Site :=
  ⟨"Si", (0, 0, 0), (0, 0, 0), 1⟩

/-- Silicon site at fractional (1/4, 1/4, 1/4). -/
def siSite1 : Site :=
  ⟨"Si", (1 / 4, 1 / 4, 1 / 4), (3 / 2, 3 / 2, 3 / 2), 1⟩

/-- Cubic silicon-like structure, edge 6 Å, two sites. -/
def sW : Structure :=
  ⟨⟨6, 6, 6, 90, 90, 90, 216, matW⟩, [siSite0, siSite1]⟩

/-- Degenerate lattice: γ = 0°, a single site. -/
def sDeg : Structure :=
  ⟨⟨6, 6, 6, 90, 90, 0, 216, matW⟩, [siSite0]⟩

/-- Oblique small cell: a = b = c = 3, γ = 120°, a single origin site. -/
def sObl : Structure :=
  ⟨⟨3, 3, 3, 90, 90, 120, 27, ⟨(3, 0, 0), (0, 3, 0), (0, 0, 3)⟩⟩, [siSite0]⟩

/-- Cubic cell of edge 2 with a single origin site, cartesian (0,0,0). -/
def s2a : Structure :=
  ⟨⟨2, 2, 2, 90, 90, 90, 8, ⟨(2, 0, 0), (0, 2, 0), (0, 0, 2)⟩⟩, [siSite0]⟩

/-- Same as `s2a` except the site's supplied cartesian coordinates are
(1,0,0) — inconsistent with its fractional (0,0,0). -/
def s2b : Structure :=
  ⟨⟨2, 2, 2, 90, 90, 90, 8, ⟨(2, 0, 0), (0, 2, 0), (0, 0, 2)⟩⟩,
   [⟨"Si", (0, 0, 0), (1, 0, 0), 1⟩]⟩

/-- Structure whose single site has the unknown species symbol Xx. -/
def sXx : Structure :=
  ⟨⟨6, 6, 6, 90, 90, 90, 216, matW⟩, [⟨"Xx", (0, 0, 0), (0, 0, 0), 1⟩]⟩

lemma latticeBasis_W :
    latticeBasis ⟨6, 6, 6, 90, 90, 90, 216, matW⟩ =
      (⟨6, 0, 0⟩, ⟨0, 6, 0⟩, ⟨0, 0, 6⟩) := by
  unfold latticeBasis
  norm_num [rad_of_90, Real.cos_pi_div_two, Real.sin_pi_div_two, Real.sqrt_one]

lemma expansionSize_W : expansionSize ⟨6, 6, 6, 90, 90, 90, 216, matW⟩ = 1 := by
  norm_num [expansionSize]

/-- First atom of the render model of `sW`. -/
noncomputable def atomW0 : Atom :=
  siteAtom ⟨6, 0, 0⟩ ⟨0, 6, 0⟩ ⟨0, 0, 6⟩ 0 0 0 siSite0

/-- Second atom of the render model of `sW`. -/
noncomputable def atomW1 : Atom :=
  siteAtom ⟨6, 0, 0⟩ ⟨0, 6, 0⟩ ⟨0, 0, 6⟩ 0 0 0 siSite1

lemma sW_eval :
    processedStructure sW =
      ⟨[atomW0, atomW1], inferBonds [atomW0, atomW1],
       improvedUnitCellVertices ⟨6, 0, 0⟩ ⟨0, 6, 0⟩ ⟨0, 0, 6⟩⟩ := by
  simp [processedStructure, sW, latticeBasis_W, expansionSize_W, expandAtoms,
    List.range_succ, atomW0, atomW1]

lemma atomW0_pos : atomW0.position = ⟨0, 0, 0⟩ := by
  norm_num [atomW0, siteAtom, siSite0, Vec3.addScaled]

lemma atomW1_pos : atomW1.position = ⟨3 / 2, 3 / 2, 3 / 2⟩ := by
  norm_num [atomW1, siteAtom, siSite1, Vec3.addScaled]

lemma atomDataFor_Si : atomDataFor ("Si") = ⟨"#F0C8A0", 1.11, "Silicon"⟩ := rfl

lemma atomW0_radius : atomW0.radius = ((1.11 : ℚ) : ℝ) * 0.3 := rfl

lemma atomW1_radius : atomW1.radius = ((1.11 : ℚ) : ℝ) * 0.3 := rfl

lemma distW : dist3 ⟨0, 0, 0⟩ ⟨3 / 2, 3 / 2, 3 / 2⟩ = Real.sqrt (27 / 4) := by
  unfold dist3
  norm_num

lemma bondCond_W : bondCond [atomW0, atomW1] 0 1 := by
  unfold bondCond
  have e0 : atomAt [atomW0, atomW1] 0 = atomW0 := rfl
  have e1 : atomAt [atomW0, atomW1] 1 = atomW1 := rfl
  rw [e0, e1, atomW0_pos, atomW1_pos, atomW0_radius, atomW1_radius, distW]
  have hr : (((1.11 : ℚ) : ℝ) * 0.3 + ((1.11 : ℚ) : ℝ) * 0.3) / 0.3 * 1.5 = 3.33 := by
    push_cast
    norm_num
  rw [hr]
  refine ⟨?_, ?_, ?_⟩
  · exact (Real.sqrt_lt' (show (0 : ℝ) < 3.0 by norm_num)).mpr (by norm_num)
  · exact (Real.lt_sqrt (show (0 : ℝ) ≤ 0.1 by norm_num)).mpr (by norm_num)
  · exact (Real.sqrt_lt' (show (0 : ℝ) < 3.33 by norm_num)).mpr (by norm_num)

lemma sW_bondPairs : bondIndexPairs [atomW0, atomW1] = [(0, 1)] := by
  unfold bondIndexPairs
  have hl : ([atomW0, atomW1] : List Atom).length = 2 := rfl
  rw [hl, show allPairs 2 = [(0, 1)] from by decide]
  simp [List.filter_cons, decide_eq_true_eq, bondCond_W]

lemma sW_bonds :
    (processedStructure sW).bonds = [mkBond [atomW0, atomW1] (0, 1)] := by
  rw [sW_eval]
  show inferBonds [atomW0, atomW1] = _
  unfold inferBonds
  rw [sW_bondPairs]
  rfl

attribute [ext] Vec3

lemma processed_atoms_length (s : Structure) :
    (processedStructure s).atoms.length = expansionSize s.lattice ^ 3 * s.sites.length :=
  expandAtoms_length _ _ _ _ _

/-!
Claim C1.
-/

/-- C1 (amended): the basis computation never fails.  For every structure,
including γ = 0°/180° (sin γ = 0) and angle combinations with a negative
cz radicand, the pipeline raises nothing and returns a complete render
model: `expansionSize³ × |sites|` atoms and the 8 unit-cell vertices. -/
theorem spec_C1 (s : Structure) :
    (processedStructure s).atoms.length = expansionSize s.lattice ^ 3 * s.sites.length ∧
    (processedStructure s).unitCellVertices.length = 8 :=
  ⟨processed_atoms_length s, rfl⟩

/-- Witness for C1 at the concrete structure `sW`. -/
theorem spec_C1_witness :
    (processedStructure sW).atoms.length = expansionSize sW.lattice ^ 3 * sW.sites.length ∧
    (processedStructure sW).unitCellVertices.length = 8 :=
  spec_C1 sW

/-- C1 (counterexample): the lattice of `sDeg` has γ = 0°, so sin γ = 0,
yet no `DegenerateLatticeError` exists: the pipeline still returns a full
render model (one atom, 8 unit-cell vertices) rather than failing. -/
theorem spec_C1_cex :
    Real.sin ((sDeg.lattice.gamma : ℝ) * Real.pi / 180) = 0 ∧
    (processedStructure sDeg).atoms.length = 1 ∧
    (processedStructure sDeg).unitCellVertices.length = 8 := by
  refine ⟨?_, ?_, rfl⟩
  · norm_num [sDeg]
  · rw [processed_atoms_length]
    norm_num [sDeg, expansionSize]

/-!
Claim C4.
-/

/-- C4: the bond predicate is symmetric and irreflexive, the produced
index-pair list has no duplicates, and every produced pair satisfies
`i < j < n` — each unordered pair is evaluated exactly once. -/
theorem spec_C4 (atoms : List Atom) :
    (∀ i j, bondCond atoms i j ↔ bondCond atoms j i) ∧
    (∀ i, ¬ bondCond atoms i i) ∧
    (bondIndexPairs atoms).Nodup ∧
    (∀ p ∈ bondIndexPairs atoms, p.1 < p.2 ∧ p.2 < atoms.length) := by
  refine ⟨?_, ?_, ?_, ?_⟩
  · intro i j
    simp only [bondCond]
    rw [dist3_comm, add_comm ((atomAt atoms i).radius)]
  · intro i
    simp only [bondCond, dist3_self]
    rintro ⟨-, h2, -⟩
    norm_num at h2
  · exact List.Nodup.filter _ (allPairs_nodup atoms.length)
  · intro p hp
    exact mem_allPairs.mp (List.mem_of_mem_filter hp)

/-- Witness for C4, instantiated at the two-atom render model of `sW`. -/
theorem spec_C4_witness :
    (∀ i j, bondCond (processedStructure sW).atoms i j ↔
      bondCond (processedStructure sW).atoms j i) ∧
    (∀ i, ¬ bondCond (processedStructure sW).atoms i i) ∧
    (bondIndexPairs (processedStructure sW).atoms).Nodup ∧
    (∀ p ∈ bondIndexPairs (processedStructure sW).atoms,
      p.1 < p.2 ∧ p.2 < (processedStructure sW).atoms.length) :=
  spec_C4 (processedStructure sW).atoms

/-!
Claim C9.
-/

/-- All eight 0/1 coefficient triples. -/
def cube01 : List (ℕ × ℕ × ℕ) :=
  [(0, 0, 0), (1, 0, 0), (0, 1, 0), (0, 0, 1), (1, 1, 0), (1, 0, 1), (0, 1, 1), (1, 1, 1)]

/-- Coefficient triples of the `ImprovedCrystalStructure3D` vertex list,
in source order: 0, a, a+b, b, c, a+c, a+b+c, b+c. -/
def improvedVertexCoeffs : List (ℕ × ℕ × ℕ) :=
  [(0, 0, 0), (1, 0, 0), (1, 1, 0), (0, 1, 0), (0, 0, 1), (1, 0, 1), (1, 1, 1), (0, 1, 1)]

/-- Coefficient triples of the `UnitCell` vertex list, in source order:
0, a, b, c, a+b, a+c, b+c, a+b+c. -/
def sceneVertexCoeffs : List (ℕ × ℕ × ℕ) :=
  [(0, 0, 0), (1, 0, 0), (0, 1, 0), (0, 0, 1), (1, 1, 0), (1, 0, 1), (0, 1, 1), (1, 1, 1)]

/-- Linear combination of the basis vectors with coefficient triple t. -/
def coeffCombo (t : ℕ × ℕ × ℕ) (aV bV cV : Vec3) : Vec3 :=
  ⟨(t.1 : ℝ) * aV.x + (t.2.1 : ℝ) * bV.x + (t.2.2 : ℝ) * cV.x,
   (t.1 : ℝ) * aV.y + (t.2.1 : ℝ) * bV.y + (t.2.2 : ℝ) * cV.y,
   (t.1 : ℝ) * aV.z + (t.2.1 : ℝ) * bV.z + (t.2.2 : ℝ) * cV.z⟩

/-- Linear combination of the matrix rows with coefficient triple t. -/
def coeffCombo3 (t : ℕ × ℕ × ℕ) (u v w : ℚ × ℚ × ℚ) : ℚ × ℚ × ℚ :=
  ((t.1 : ℚ) * u.1 + (t.2.1 : ℚ) * v.1 + (t.2.2 : ℚ) * w.1,
   (t.1 : ℚ) * u.2.1 + (t.2.1 : ℚ) * v.2.1 + (t.2.2 : ℚ) * w.2.1,
   (t.1 : ℚ) * u.2.2 + (t.2.1 : ℚ) * v.2.2 + (t.2.2 : ℚ) * w.2.2)

/-- Number of coordinates in which two coefficient triples differ. -/
def diffCount (t u : ℕ × ℕ × ℕ) : ℕ :=
  (if t.1 = u.1 then 0 else 1) + (if t.2.1 = u.2.1 then 0 else 1) +
    (if t.2.2 = u.2.2 then 0 else 1)

/-- Unordered view of an index pair. -/
def sortedPair (p : ℕ × ℕ) : ℕ × ℕ :=
  (min p.1 p.2, max p.1 p.2)

/-- C9: in both implementations the unit-cell outline has exactly the
8 vertices given by the 0/1-coefficient combinations of the basis vectors
and exactly 12 edges, each joining two vertices whose coefficient triples
differ in exactly one coordinate, with no duplicated unordered edge. -/
theorem spec_C9 (aV bV cV : Vec3) (m : Mat3) :
    improvedUnitCellVertices aV bV cV =
      improvedVertexCoeffs.map (fun t => coeffCombo t aV bV cV) ∧
    (improvedUnitCellVertices aV bV cV).length = 8 ∧
    improvedVertexCoeffs.Perm cube01 ∧
    improvedUnitCellEdges.length = 12 ∧
    (improvedUnitCellEdges.map sortedPair).Nodup ∧
    (∀ e ∈ improvedUnitCellEdges,
      diffCount (improvedVertexCoeffs.getD e.1 (0, 0, 0))
        (improvedVertexCoeffs.getD e.2 (0, 0, 0)) = 1) ∧
    sceneUnitCellVertices m =
      sceneVertexCoeffs.map (fun t => coeffCombo3 t m.row0 m.row1 m.row2) ∧
    (sceneUnitCellVertices m).length = 8 ∧
    sceneVertexCoeffs.Perm cube01 ∧
    sceneUnitCellEdges.length = 12 ∧
    (sceneUnitCellEdges.map sortedPair).Nodup ∧
    (∀ e ∈ sceneUnitCellEdges,
      diffCount (sceneVertexCoeffs.getD e.1 (0, 0, 0))
        (sceneVertexCoeffs.getD e.2 (0, 0, 0)) = 1) := by
  refine ⟨?_, rfl, by decide, by decide, by decide, by decide,
    ?_, rfl, by decide, by decide, by decide, by decide⟩
  · simp [improvedUnitCellVertices, improvedVertexCoeffs, coeffCombo, Vec3.add,
      Vec3.ext_iff]
  · simp [sceneUnitCellVertices, sceneVertexCoeffs, coeffCombo3, add3, Prod.ext_iff]

/-- Witness for C9 at the standard basis vectors and identity matrix. -/
theorem spec_C9_witness :
    improvedUnitCellVertices ⟨1, 0, 0⟩ ⟨0, 1, 0⟩ ⟨0, 0, 1⟩ =
      improvedVertexCoeffs.map (fun t => coeffCombo t ⟨1, 0, 0⟩ ⟨0, 1, 0⟩ ⟨0, 0, 1⟩) ∧
    (improvedUnitCellVertices ⟨1, 0, 0⟩ ⟨0, 1, 0⟩ ⟨0, 0, 1⟩).length = 8 ∧
    improvedVertexCoeffs.Perm cube01 ∧
    improvedUnitCellEdges.length = 12 ∧
    (improvedUnitCellEdges.map sortedPair).Nodup ∧
    (∀ e ∈ improvedUnitCellEdges,
      diffCount (improvedVertexCoeffs.getD e.1 (0, 0, 0))
        (improvedVertexCoeffs.getD e.2 (0, 0, 0)) = 1) ∧
    sceneUnitCellVertices ⟨(1, 0, 0), (0, 1, 0), (0, 0, 1)⟩ =
      sceneVertexCoeffs.map (fun t => coeffCombo3 t (1, 0, 0) (0, 1, 0) (0, 0, 1)) ∧
    (sceneUnitCellVertices ⟨(1, 0, 0), (0, 1, 0), (0, 0, 1)⟩).length = 8 ∧
    sceneVertexCoeffs.Perm cube01 ∧
    sceneUnitCellEdges.length = 12 ∧
    (sceneUnitCellEdges.map sortedPair).Nodup ∧
    (∀ e ∈ sceneUnitCellEdges,
      diffCount (sceneVertexCoeffs.getD e.1 (0, 0, 0))
        (sceneVertexCoeffs.getD e.2 (0, 0, 0)) = 1) :=
  spec_C9 ⟨1, 0, 0⟩ ⟨0, 1, 0⟩ ⟨0, 0, 1⟩ ⟨(1, 0, 0), (0, 1, 0), (0, 0, 1)⟩

/-!
Claim C8.
-/

/-- C8: the framing center is the axis-wise midpoint of the per-axis
min/max cartesian extents, the extent is `max(maxRange × 1.5, 10)`, and
the empty atom list yields center (0,0,0) with extent 10. -/
theorem spec_C8 (sites : List ExpandedSite) :
    sceneCenterBounds [] = ((0, 0, 0), 10) ∧
    ∀ s0 rest, sites = s0 :: rest →
      ∃ mnX mxX mnY mxY mnZ mxZ : ℚ,
        (mnX ∈ sites.map (fun t => t.cart_coords.1) ∧
          ∀ q ∈ sites.map (fun t => t.cart_coords.1), mnX ≤ q) ∧
        (mxX ∈ sites.map (fun t => t.cart_coords.1) ∧
          ∀ q ∈ sites.map (fun t => t.cart_coords.1), q ≤ mxX) ∧
        (mnY ∈ sites.map (fun t => t.cart_coords.2.1) ∧
          ∀ q ∈ sites.map (fun t => t.cart_coords.2.1), mnY ≤ q) ∧
        (mxY ∈ sites.map (fun t => t.cart_coords.2.1) ∧
          ∀ q ∈ sites.map (fun t => t.cart_coords.2.1), q ≤ mxY) ∧
        (mnZ ∈ sites.map (fun t => t.cart_coords.2.2) ∧
          ∀ q ∈ sites.map (fun t => t.cart_coords.2.2), mnZ ≤ q) ∧
        (mxZ ∈ sites.map (fun t => t.cart_coords.2.2) ∧
          ∀ q ∈ sites.map (fun t => t.cart_coords.2.2), q ≤ mxZ) ∧
        sceneCenterBounds sites =
          (((mnX + mxX) / 2, (mnY + mxY) / 2, (mnZ + mxZ) / 2),
           max (max (max (mxX - mnX) (mxY - mnY)) (mxZ - mnZ) * 1.5) 10) := by
  refine ⟨rfl, ?_⟩
  rintro s0 rest rfl
  have hMinMem : ∀ f : ExpandedSite → ℚ,
      rest.foldl (fun m t => min m (f t)) (f s0) ∈ (s0 :: rest).map f := by
    intro f
    rw [List.map_cons]
    have h := foldl_min_mem (rest.map f) (f s0)
    rwa [List.foldl_map] at h
  have hMinLe : ∀ f : ExpandedSite → ℚ, ∀ q ∈ (s0 :: rest).map f,
      rest.foldl (fun m t => min m (f t)) (f s0) ≤ q := by
    intro f q hq
    rw [List.map_cons] at hq
    have h := foldl_min_le (rest.map f) (f s0) q hq
    rwa [List.foldl_map] at h
  have hMaxMem : ∀ f : ExpandedSite → ℚ,
      rest.foldl (fun m t => max m (f t)) (f s0) ∈ (s0 :: rest).map f := by
    intro f
    rw [List.map_cons]
    have h := foldl_max_mem (rest.map f) (f s0)
    rwa [List.foldl_map] at h
  have hMaxGe : ∀ f : ExpandedSite → ℚ, ∀ q ∈ (s0 :: rest).map f,
      q ≤ rest.foldl (fun m t => max m (f t)) (f s0) := by
    intro f q hq
    rw [List.map_cons] at hq
    have h := foldl_max_ge (rest.map f) (f s0) q hq
    rwa [List.foldl_map] at h
  exact ⟨_, _, _, _, _, _,
    ⟨hMinMem _, hMinLe _⟩, ⟨hMaxMem _, hMaxGe _⟩,
    ⟨hMinMem _, hMinLe _⟩, ⟨hMaxMem _, hMaxGe _⟩,
    ⟨hMinMem _, hMinLe _⟩, ⟨hMaxMem _, hMaxGe _⟩, rfl⟩

/-- Witness for C8 at a concrete one-atom expanded list. -/
theorem spec_C8_witness :
    sceneCenterBounds [] = ((0, 0, 0), 10) ∧
    ∀ s0 rest, ([(⟨"Si", (0, 0, 0), (1, 2, 3)⟩ : ExpandedSite)] : List ExpandedSite) = s0 :: rest →
      ∃ mnX mxX mnY mxY mnZ mxZ : ℚ,
        (mnX ∈ [(⟨"Si", (0, 0, 0), (1, 2, 3)⟩ : ExpandedSite)].map (fun t => t.cart_coords.1) ∧
          ∀ q ∈ [(⟨"Si", (0, 0, 0), (1, 2, 3)⟩ : ExpandedSite)].map (fun t => t.cart_coords.1), mnX ≤ q) ∧
        (mxX ∈ [(⟨"Si", (0, 0, 0), (1, 2, 3)⟩ : ExpandedSite)].map (fun t => t.cart_coords.1) ∧
          ∀ q ∈ [(⟨"Si", (0, 0, 0), (1, 2, 3)⟩ : ExpandedSite)].map (fun t => t.cart_coords.1), q ≤ mxX) ∧
        (mnY ∈ [(⟨"Si", (0, 0, 0), (1, 2, 3)⟩ : ExpandedSite)].map (fun t => t.cart_coords.2.1) ∧
          ∀ q ∈ [(⟨"Si", (0, 0, 0), (1, 2, 3)⟩ : ExpandedSite)].map (fun t => t.cart_coords.2.1), mnY ≤ q) ∧
        (mxY ∈ [(⟨"Si", (0, 0, 0), (1, 2, 3)⟩ : ExpandedSite)].map (fun t => t.cart_coords.2.1) ∧
          ∀ q ∈ [(⟨"Si", (0, 0, 0), (1, 2, 3)⟩ : ExpandedSite)].map (fun t => t.cart_coords.2.1), q ≤ mxY) ∧
        (mnZ ∈ [(⟨"Si", (0, 0, 0), (1, 2, 3)⟩ : ExpandedSite)].map (fun t => t.cart_coords.2.2) ∧
          ∀ q ∈ [(⟨"Si", (0, 0, 0), (1, 2, 3)⟩ : ExpandedSite)].map (fun t => t.cart_coords.2.2), mnZ ≤ q) ∧
        (mxZ ∈ [(⟨"Si", (0, 0, 0), (1, 2, 3)⟩ : ExpandedSite)].map (fun t => t.cart_coords.2.2) ∧
          ∀ q ∈ [(⟨"Si", (0, 0, 0), (1, 2, 3)⟩ : ExpandedSite)].map (fun t => t.cart_coords.2.2), q ≤ mxZ) ∧
        sceneCenterBounds [(⟨"Si", (0, 0, 0), (1, 2, 3)⟩ : ExpandedSite)] =
          (((mnX + mxX) / 2, (mnY + mxY) / 2, (mnZ + mxZ) / 2),
           max (max (max (mxX - mnX) (mxY - mnY)) (mxZ - mnZ) * 1.5) 10) :=
  spec_C8 [⟨"Si", (0, 0, 0), (1, 2, 3)⟩]

/-!
Claims C2 and C10.
-/

lemma processed_atoms_eq (s : Structure) :
    (processedStructure s).atoms =
      expandAtoms (latticeBasis s.lattice).1 (latticeBasis s.lattice).2.1
        (latticeBasis s.lattice).2.2 (expansionSize s.lattice) s.sites := rfl

lemma processed_bonds_eq (s : Structure) :
    (processedStructure s).bonds = inferBonds (processedStructure s).atoms := rfl

lemma atomAt_mem {atoms : List Atom} {i : ℕ} (h : i < atoms.length) :
    atomAt atoms i ∈ atoms := by
  unfold atomAt
  rw [List.getD_eq_getElem _ _ h]
  exact List.getElem_mem h

lemma processed_radius_eq (s : Structure) {i : ℕ}
    (h : i < (processedStructure s).atoms.length) :
    (atomAt (processedStructure s).atoms i).radius =
      ((atomDataFor (atomAt (processedStructure s).atoms i).element).radius : ℝ) * 0.3 := by
  have hmem : atomAt (processedStructure s).atoms i ∈ (processedStructure s).atoms :=
    atomAt_mem h
  rw [processed_atoms_eq] at hmem
  exact (expandAtoms_fallbackData hmem).1

/-- C2: for every pair `i < j` of atom indices of the render model, a bond
is produced exactly when `0.1 < d < 3.0` and `d < 1.5 × (R_i + R_j)`,
where `R` is the element's covalent radius from the table (with its
fallback entry). -/
theorem spec_C2 (s : Structure) (i j : ℕ) (hij : i < j)
    (hj : j < (processedStructure s).atoms.length) :
    (processedStructure s).bonds =
      (bondIndexPairs (processedStructure s).atoms).map
        (mkBond (processedStructure s).atoms) ∧
    ((i, j) ∈ bondIndexPairs (processedStructure s).atoms ↔
      (0.1 < dist3 (atomAt (processedStructure s).atoms i).position
          (atomAt (processedStructure s).atoms j).position ∧
       dist3 (atomAt (processedStructure s).atoms i).position
          (atomAt (processedStructure s).atoms j).position < 3.0 ∧
       dist3 (atomAt (processedStructure s).atoms i).position
          (atomAt (processedStructure s).atoms j).position <
         1.5 * (((atomDataFor (atomAt (processedStructure s).atoms i).element).radius : ℝ) +
           ((atomDataFor (atomAt (processedStructure s).atoms j).element).radius : ℝ)))) := by
  refine ⟨rfl, ?_⟩
  have hi : i < (processedStructure s).atoms.length := hij.trans hj
  have hmem : (i, j) ∈ bondIndexPairs (processedStructure s).atoms ↔
      bondCond (processedStructure s).atoms i j := by
    unfold bondIndexPairs
    rw [List.mem_filter, mem_allPairs]
    simp [hij, hj]
  rw [hmem]
  simp only [bondCond]
  rw [processed_radius_eq s hi, processed_radius_eq s hj]
  have hr : ∀ Ri Rj : ℝ, (Ri * 0.3 + Rj * 0.3) / 0.3 * 1.5 = 1.5 * (Ri + Rj) := by
    intro Ri Rj
    ring
  rw [hr]
  exact ⟨fun ⟨h1, h2, h3⟩ => ⟨h2, h1, h3⟩, fun ⟨h2, h1, h3⟩ => ⟨h1, h2, h3⟩⟩

/-- Witness for C2 at the silicon pair of `sW`, which is bonded. -/
theorem spec_C2_witness :
    0 < 1 ∧ 1 < (processedStructure sW).atoms.length ∧
    (processedStructure sW).bonds =
      (bondIndexPairs (processedStructure sW).atoms).map
        (mkBond (processedStructure sW).atoms) ∧
    ((0, 1) ∈ bondIndexPairs (processedStructure sW).atoms ↔
      (0.1 < dist3 (atomAt (processedStructure sW).atoms 0).position
          (atomAt (processedStructure sW).atoms 1).position ∧
       dist3 (atomAt (processedStructure sW).atoms 0).position
          (atomAt (processedStructure sW).atoms 1).position < 3.0 ∧
       dist3 (atomAt (processedStructure sW).atoms 0).position
          (atomAt (processedStructure sW).atoms 1).position <
         1.5 * (((atomDataFor (atomAt (processedStructure sW).atoms 0).element).radius : ℝ) +
           ((atomDataFor (atomAt (processedStructure sW).atoms 1).element).radius : ℝ)))) := by
  have hlen : 1 < (processedStructure sW).atoms.length := by
    rw [sW_eval]
    norm_num
  have h := spec_C2 sW 0 1 (by norm_num) hlen
  exact ⟨by norm_num, hlen, h.1, h.2⟩

/-- C10: every bond of the render model stores as its `length` the
euclidean distance between its endpoints, and that length lies strictly
between 0.1 and 3.0. -/
theorem spec_C10 (s : Structure) (b : Bond) (hb : b ∈ (processedStructure s).bonds) :
    b.length = dist3 b.start b.endPos ∧ 0.1 < b.length ∧ b.length < 3.0 := by
  rw [processed_bonds_eq] at hb
  unfold inferBonds at hb
  rw [List.mem_map] at hb
  obtain ⟨p, hp, rfl⟩ := hb
  have hcond : bondCond (processedStructure s).atoms p.1 p.2 :=
    of_decide_eq_true (List.mem_filter.mp hp).2
  simp only [bondCond] at hcond
  obtain ⟨h1, h2, -⟩ := hcond
  exact ⟨rfl, h2, h1⟩

/-- Witness for C10 at the unique bond of `sW`. -/
theorem spec_C10_witness :
    mkBond [atomW0, atomW1] (0, 1) ∈ (processedStructure sW).bonds ∧
    ((mkBond [atomW0, atomW1] (0, 1)).length =
        dist3 (mkBond [atomW0, atomW1] (0, 1)).start (mkBond [atomW0, atomW1] (0, 1)).endPos ∧
     0.1 < (mkBond [atomW0, atomW1] (0, 1)).length ∧
     (mkBond [atomW0, atomW1] (0, 1)).length < 3.0) := by
  have hmem : mkBond [atomW0, atomW1] (0, 1) ∈ (processedStructure sW).bonds := by
    rw [sW_bonds]
    exact List.mem_singleton.mpr rfl
  exact ⟨hmem, spec_C10 sW _ hmem⟩

/-!
Claim C6.
-/

/-- C6: an unknown species symbol never raises.  `getElementData` resolves
it to the `X` fallback entry; the `ImprovedCrystalStructure3D` lookup
resolves it to the carbon fallback entry; and the pipeline still produces
the full atom count, every atom carrying the fallback radius and color. -/
theorem spec_C6 (sym : String) (s : Structure)
    (h1 : ATOMIC_DATA.lookup (trimStr sym) = none)
    (h2 : ATOMIC_DATA.lookup sym = none)
    (hs : ∀ site ∈ s.sites, site.species = sym) :
    getElementData sym = xData ∧
    atomDataFor sym = cData ∧
    (∀ t ∈ (processedStructure s).atoms,
      t.radius = (cData.radius : ℝ) * 0.3 ∧ t.color = cData.color) ∧
    (processedStructure s).atoms.length = expansionSize s.lattice ^ 3 * s.sites.length := by
  refine ⟨?_, ?_, ?_, processed_atoms_length s⟩
  · unfold getElementData
    rw [h1]
    rfl
  · unfold atomDataFor
    rw [h2]
    rfl
  · intro t ht
    rw [processed_atoms_eq] at ht
    obtain ⟨site, hsite, i, j, k, -, -, -, rfl⟩ := mem_expandAtoms ht
    have hsp : site.species = sym := hs site hsite
    constructor
    · rw [siteAtom_radius, hsp]
      unfold atomDataFor
      rw [h2]
      rfl
    · rw [siteAtom_color, hsp]
      unfold atomDataFor
      rw [h2]
      rfl

/-- Witness for C6 at the unknown symbol Xx and the structure `sXx`. -/
theorem spec_C6_witness :
    ATOMIC_DATA.lookup (trimStr ("Xx")) = none ∧
    ATOMIC_DATA.lookup ("Xx") = none ∧
    (∀ site ∈ sXx.sites, site.species = ("Xx" : String)) ∧
    (getElementData ("Xx") = xData ∧
     atomDataFor ("Xx") = cData ∧
     (∀ t ∈ (processedStructure sXx).atoms,
       t.radius = (cData.radius : ℝ) * 0.3 ∧ t.color = cData.color) ∧
     (processedStructure sXx).atoms.length =
       expansionSize sXx.lattice ^ 3 * sXx.sites.length) := by
  have h1 : ATOMIC_DATA.lookup (trimStr ("Xx")) = none := rfl
  have h2 : ATOMIC_DATA.lookup ("Xx") = none := rfl
  have hs : ∀ site ∈ sXx.sites, site.species = ("Xx" : String) := by
    intro site hsite
    rcases List.mem_singleton.mp hsite with rfl
    rfl
  exact ⟨h1, h2, hs, spec_C6 ("Xx") sXx h1 h2 hs⟩

/-!
Claim C3.
-/

/-- Projection of a site to the fields the `ImprovedCrystalStructure3D`
pipeline reads: species and fractional coordinates.  The supplied
cartesian coordinates and occupancy are not among them. -/
def siteKey (site : Site) : String × (ℚ × ℚ × ℚ) :=
  (site.species, site.frac_coords)

/-- Atom construction factored through `siteKey`. -/
noncomputable def siteAtomKey (aV bV cV : Vec3) (i j k : ℕ)
    (pr : String × (ℚ × ℚ × ℚ)) : Atom :=
  let fracX : ℝ := (pr.2.1 : ℝ) + (i : ℝ)
  let fracY : ℝ := (pr.2.2.1 : ℝ) + (j : ℝ)
  let fracZ : ℝ := (pr.2.2.2 : ℝ) + (k : ℝ)
  let position := (((⟨0, 0, 0⟩ : Vec3).addScaled aV fracX).addScaled bV fracY).addScaled cV fracZ
  let atomData := atomDataFor pr.1
  ⟨position, pr.1, (atomData.radius : ℝ) * 0.3, atomData.color⟩

/-- C3 (amended, `ImprovedCrystalStructure3D` part): the render model
depends only on the lattice and on each site's species and fractional
coordinates — supplied cartesian coordinates never influence any output. -/
theorem spec_C3 (s₁ s₂ : Structure) (hl : s₁.lattice = s₂.lattice)
    (hsites : s₁.sites.map siteKey = s₂.sites.map siteKey) :
    processedStructure s₁ = processedStructure s₂ := by
  have hmap : ∀ (aV bV cV : Vec3) (i j k : ℕ),
      s₁.sites.map (siteAtom aV bV cV i j k) = s₂.sites.map (siteAtom aV bV cV i j k) := by
    intro aV bV cV i j k
    have e1 : s₁.sites.map (siteAtom aV bV cV i j k) =
        (s₁.sites.map siteKey).map (siteAtomKey aV bV cV i j k) := by
      rw [List.map_map]
      rfl
    rw [e1, hsites, List.map_map]
    rfl
  have hatoms : ∀ (aV bV cV : Vec3) (size : ℕ),
      expandAtoms aV bV cV size s₁.sites = expandAtoms aV bV cV size s₂.sites := by
    intro aV bV cV size
    unfold expandAtoms
    exact congrArg _ (funext fun i => congrArg _ (funext fun j =>
      congrArg _ (funext fun k => hmap aV bV cV i j k)))
  simp only [processedStructure]
  rw [hl, hatoms]

/-- Witness for C3: `s2a` and `s2b` differ only in the supplied cartesian
coordinates, and the render models coincide. -/
theorem spec_C3_witness :
    s2a.lattice = s2b.lattice ∧
    s2a.sites.map siteKey = s2b.sites.map siteKey ∧
    processedStructure s2a = processedStructure s2b :=
  ⟨rfl, rfl, spec_C3 s2a s2b rfl rfl⟩

/-- C3 (counterexample): the `Scene.expandedSites` path of
`Structure3D/atomicData.ts` positions atoms from the supplied cartesian
coordinates.  `s2a` and `s2b` agree on lattice, species and fractional
coordinates and differ only in the supplied cartesian coordinates, yet
their expanded atom lists differ (27 atoms versus 18). -/
theorem spec_C3_cex :
    s2a.lattice = s2b.lattice ∧
    s2a.sites.map siteKey = s2b.sites.map siteKey ∧
    (sceneExpandedSites s2a).length = 27 ∧
    (sceneExpandedSites s2b).length = 18 ∧
    sceneExpandedSites s2a ≠ sceneExpandedSites s2b := by
  have ha : (sceneExpandedSites s2a).length = 27 := by
    norm_num [sceneExpandedSites, s2a, siSite0, List.range_succ, List.filterMap_cons]
  have hb : (sceneExpandedSites s2b).length = 18 := by
    norm_num [sceneExpandedSites, s2b, List.range_succ, List.filterMap_cons]
  refine ⟨rfl, rfl, ha, hb, ?_⟩
  intro h
  rw [h, hb] at ha
  exact absurd ha (by norm_num)

/-!
Claim C5.
-/

lemma length_flatMap_le {α β : Type} (l : List α) (f : α → List β) (k : ℕ)
    (h : ∀ a ∈ l, (f a).length ≤ k) : (l.flatMap f).length ≤ l.length * k := by
  induction l with
  | nil => simp
  | cons x xs ih =>
    rw [List.flatMap_cons, List.length_append, List.length_cons]
    have h1 := h x (List.mem_cons_self _ _)
    have h2 := ih fun a ha => h a (List.mem_cons_of_mem _ ha)
    calc (f x).length + (xs.flatMap f).length ≤ k + xs.length * k := Nat.add_le_add h1 h2
    _ = (xs.length + 1) * k := by ring

/-- C5 (amended, `Scene.expandedSites` part): a single-site structure
expands to at most (2+1)³ = 27 atoms, and every produced atom lies inside
the boundary envelope `[-0.1, 2·axis + 0.1]` on each axis. -/
theorem spec_C5 (s : Structure) (site : Site) (hsites : s.sites = [site])
    (_hfrac : site.frac_coords = (0, 0, 0)) :
    (sceneExpandedSites s).length ≤ 27 ∧
    ∀ t ∈ sceneExpandedSites s,
      -0.1 ≤ t.cart_coords.1 ∧ t.cart_coords.1 ≤ 2 * s.lattice.a + 0.1 ∧
      -0.1 ≤ t.cart_coords.2.1 ∧ t.cart_coords.2.1 ≤ 2 * s.lattice.b + 0.1 ∧
      -0.1 ≤ t.cart_coords.2.2 ∧ t.cart_coords.2.2 ≤ 2 * s.lattice.c + 0.1 := by
  constructor
  · unfold sceneExpandedSites
    split
    · simp
    · have hinner : ∀ f : Site → Option ExpandedSite,
          (s.sites.filterMap f).length ≤ 1 := by
        intro f
        calc (s.sites.filterMap f).length ≤ s.sites.length := List.length_filterMap_le f s.sites
        _ = 1 := by rw [hsites]; rfl
      have h3 : ∀ g : ℕ → List ExpandedSite, (∀ d ∈ List.range 3, (g d).length ≤ 9) →
          ((List.range 3).flatMap g).length ≤ 27 := by
        intro g hg
        calc ((List.range 3).flatMap g).length ≤ (List.range 3).length * 9 :=
          length_flatMap_le _ _ _ hg
        _ = 27 := by simp
      refine h3 _ ?_
      intro dx _
      calc ((List.range 3).flatMap _).length ≤ (List.range 3).length * 3 := by
            refine length_flatMap_le _ _ _ ?_
            intro dy _
            calc ((List.range 3).flatMap _).length ≤ (List.range 3).length * 1 := by
                  refine length_flatMap_le _ _ _ ?_
                  intro dz _
                  exact hinner _
            _ = 3 := by simp
      _ = 9 := by simp
  · intro t ht
    unfold sceneExpandedSites at ht
    split at ht
    · exact absurd ht (List.not_mem_nil t)
    · simp only [List.mem_flatMap, List.mem_filterMap, List.mem_range] at ht
      obtain ⟨dx, -, dy, -, dz, -, site', -, hf⟩ := ht
      dsimp only at hf
      split at hf
      · rename_i hcond
        obtain rfl : _ = t := Option.some.inj hf
        exact hcond
      · exact absurd hf (by simp)

/-- Witness for C5 at the single-origin-site structure `s2a`. -/
theorem spec_C5_witness :
    s2a.sites = [siSite0] ∧ siSite0.frac_coords = (0, 0, 0) ∧
    ((sceneExpandedSites s2a).length ≤ 27 ∧
     ∀ t ∈ sceneExpandedSites s2a,
       -0.1 ≤ t.cart_coords.1 ∧ t.cart_coords.1 ≤ 2 * s2a.lattice.a + 0.1 ∧
       -0.1 ≤ t.cart_coords.2.1 ∧ t.cart_coords.2.1 ≤ 2 * s2a.lattice.b + 0.1 ∧
       -0.1 ≤ t.cart_coords.2.2 ∧ t.cart_coords.2.2 ≤ 2 * s2a.lattice.c + 0.1) :=
  ⟨rfl, rfl, spec_C5 s2a siSite0 rfl rfl⟩

/-- C5 (counterexample): the `ImprovedCrystalStructure3D` expansion has no
boundary filter.  For the oblique lattice `sObl` (γ = 120°, single origin
site, translation range 0..1 inclusive per axis) the replica translated by
(0,1,0) has cartesian x-coordinate −3/2, far outside the envelope lower
bound −0.1. -/
theorem spec_C5_cex :
    sObl.sites = [siSite0] ∧
    siSite0.frac_coords = (0, 0, 0) ∧
    expansionSize sObl.lattice = 2 ∧
    ((processedStructure sObl).atoms.map (fun t => t.position.x)).getD 2 0 = -(3 / 2) ∧
    (-(3 / 2) : ℝ) < -0.1 := by
  have hs : expansionSize sObl.lattice = 2 := by
    norm_num [expansionSize, sObl]
  refine ⟨rfl, rfl, hs, ?_, by norm_num⟩
  have hb : latticeBasis sObl.lattice =
      (⟨(3 : ℝ), 0, 0⟩, ⟨-(3 / 2), 3 * (Real.sqrt 3 / 2), 0⟩, ⟨0, 0, (3 : ℝ)⟩) := by
    have h := latticeBasis_oblique 3 3 3 27 ⟨(3, 0, 0), (0, 3, 0), (0, 0, 3)⟩
    norm_num at h
    exact h
  have hsites : sObl.sites = [siSite0] := rfl
  rw [processed_atoms_eq, hb, hs, hsites]
  norm_num [expandAtoms, List.range_succ, siteAtom, Vec3.addScaled, siSite0]

/-!
Claim C7.
-/

/-- Scalar triple product u · (v × w). -/
noncomputable def tripleProduct (u v w : Vec3) : ℝ :=
  u.x * (v.y * w.z - v.z * w.y) - u.y * (v.x * w.z - v.z * w.x) +
    u.z * (v.x * w.y - v.y * w.x)

/-- Modelled from the spec: the derived lattice `volume` (§3 calls
`volume` derived with the invariant that it be positive; §8 states the
triple-product property against it).  The backend service that fills the
`volume` field of the API payload is not part of src/, so the volume is
modelled by the standard crystallographic volume formula of the six
lattice parameters. -/
noncomputable def latticeVolume (l : Lattice) : ℝ :=
  let ca := Real.cos ((l.alpha : ℝ) * Real.pi / 180)
  let cb := Real.cos ((l.beta : ℝ) * Real.pi / 180)
  let cg := Real.cos ((l.gamma : ℝ) * Real.pi / 180)
  (l.a : ℝ) * (l.b : ℝ) * (l.c : ℝ) *
    Real.sqrt (1 - ca ^ 2 - cb ^ 2 - cg ^ 2 + 2 * ca * cb * cg)

lemma triple_volume_key (A B C ca cb cg sg : ℝ) (hsg : 0 < sg)
    (hsq : sg ^ 2 + cg ^ 2 = 1) :
    A * (B * sg * (C * Real.sqrt (1 - cb ^ 2 - ((ca - cb * cg) / sg) ^ 2))) =
      A * B * C * Real.sqrt (1 - ca ^ 2 - cb ^ 2 - cg ^ 2 + 2 * ca * cb * cg) := by
  have hne : sg ≠ 0 := ne_of_gt hsg
  have h1 : sg * Real.sqrt (1 - cb ^ 2 - ((ca - cb * cg) / sg) ^ 2) =
      Real.sqrt (sg ^ 2 * (1 - cb ^ 2 - ((ca - cb * cg) / sg) ^ 2)) := by
    rw [Real.sqrt_mul (sq_nonneg sg), Real.sqrt_sq hsg.le]
  have h2 : sg ^ 2 * (1 - cb ^ 2 - ((ca - cb * cg) / sg) ^ 2) =
      1 - ca ^ 2 - cb ^ 2 - cg ^ 2 + 2 * ca * cb * cg := by
    rw [div_pow]
    have he : sg ^ 2 * (1 - cb ^ 2 - (ca - cb * cg) ^ 2 / sg ^ 2) =
        sg ^ 2 * (1 - cb ^ 2) - (ca - cb * cg) ^ 2 := by
      field_simp
      ring
    rw [he]
    linear_combination (1 - cb ^ 2) * hsq
  calc A * (B * sg * (C * Real.sqrt (1 - cb ^ 2 - ((ca - cb * cg) / sg) ^ 2)))
      = A * B * C * (sg * Real.sqrt (1 - cb ^ 2 - ((ca - cb * cg) / sg) ^ 2)) := by ring
  _ = A * B * C * Real.sqrt (1 - ca ^ 2 - cb ^ 2 - cg ^ 2 + 2 * ca * cb * cg) := by
      rw [h1, h2]

/-- C7: for a valid lattice (positive lengths, angles strictly inside
(0°, 180°)) the scalar triple product of the computed basis vectors equals
the derived lattice volume — exactly, hence within relative tolerance
1e-6. -/
theorem spec_C7 (l : Lattice) (ha : 0 < l.a) (hb : 0 < l.b) (hc : 0 < l.c)
    (hα1 : 0 < l.alpha) (hα2 : l.alpha < 180)
    (hβ1 : 0 < l.beta) (hβ2 : l.beta < 180)
    (hγ1 : 0 < l.gamma) (hγ2 : l.gamma < 180) :
    |tripleProduct (latticeBasis l).1 (latticeBasis l).2.1 (latticeBasis l).2.2 -
        latticeVolume l| ≤ 1e-6 * latticeVolume l := by
  have hγpos : (0 : ℝ) < (l.gamma : ℝ) * Real.pi / 180 := by
    have h0 : (0 : ℝ) < (l.gamma : ℝ) := by exact_mod_cast hγ1
    have hπ := Real.pi_pos
    positivity
  have hγlt : (l.gamma : ℝ) * Real.pi / 180 < Real.pi := by
    have h180 : (l.gamma : ℝ) < 180 := by exact_mod_cast hγ2
    have hπ := Real.pi_pos
    rw [div_lt_iff₀ (by norm_num : (0 : ℝ) < 180)]
    calc (l.gamma : ℝ) * Real.pi < 180 * Real.pi := mul_lt_mul_of_pos_right h180 hπ
    _ = Real.pi * 180 := by ring
  have hsg : 0 < Real.sin ((l.gamma : ℝ) * Real.pi / 180) :=
    Real.sin_pos_of_pos_of_lt_pi hγpos hγlt
  have hTP : tripleProduct (latticeBasis l).1 (latticeBasis l).2.1 (latticeBasis l).2.2 =
      (l.a : ℝ) * ((l.b : ℝ) * Real.sin ((l.gamma : ℝ) * Real.pi / 180) *
        ((l.c : ℝ) * Real.sqrt (1 - Real.cos ((l.beta : ℝ) * Real.pi / 180) ^ 2 -
          ((Real.cos ((l.alpha : ℝ) * Real.pi / 180) -
              Real.cos ((l.beta : ℝ) * Real.pi / 180) *
                Real.cos ((l.gamma : ℝ) * Real.pi / 180)) /
            Real.sin ((l.gamma : ℝ) * Real.pi / 180)) ^ 2))) := by
    simp only [tripleProduct, latticeBasis]
    ring
  have hkey := triple_volume_key (l.a : ℝ) (l.b : ℝ) (l.c : ℝ)
    (Real.cos ((l.alpha : ℝ) * Real.pi / 180))
    (Real.cos ((l.beta : ℝ) * Real.pi / 180))
    (Real.cos ((l.gamma : ℝ) * Real.pi / 180))
    (Real.sin ((l.gamma : ℝ) * Real.pi / 180)) hsg
    (Real.sin_sq_add_cos_sq ((l.gamma : ℝ) * Real.pi / 180))
  have hV : latticeVolume l =
      (l.a : ℝ) * (l.b : ℝ) * (l.c : ℝ) *
        Real.sqrt (1 - Real.cos ((l.alpha : ℝ) * Real.pi / 180) ^ 2 -
          Real.cos ((l.beta : ℝ) * Real.pi / 180) ^ 2 -
          Real.cos ((l.gamma : ℝ) * Real.pi / 180) ^ 2 +
          2 * Real.cos ((l.alpha : ℝ) * Real.pi / 180) *
            Real.cos ((l.beta : ℝ) * Real.pi / 180) *
            Real.cos ((l.gamma : ℝ) * Real.pi / 180)) := rfl
  rw [hTP, hkey, ← hV, sub_self, abs_zero]
  have hVnonneg : 0 ≤ latticeVolume l := by
    rw [hV]
    have ha' : (0 : ℝ) ≤ (l.a : ℝ) := by exact_mod_cast ha.le
    have hb' : (0 : ℝ) ≤ (l.b : ℝ) := by exact_mod_cast hb.le
    have hc' : (0 : ℝ) ≤ (l.c : ℝ) := by exact_mod_cast hc.le
    exact mul_nonneg (mul_nonneg (mul_nonneg ha' hb') hc') (Real.sqrt_nonneg _)
  exact mul_nonneg (by norm_num) hVnonneg

/-- Witness for C7 at the cubic lattice of `sW`. -/
theorem spec_C7_witness :
    0 < (⟨6, 6, 6, 90, 90, 90, 216, matW⟩ : Lattice).a ∧
    0 < (⟨6, 6, 6, 90, 90, 90, 216, matW⟩ : Lattice).b ∧
    0 < (⟨6, 6, 6, 90, 90, 90, 216, matW⟩ : Lattice).c ∧
    0 < (⟨6, 6, 6, 90, 90, 90, 216, matW⟩ : Lattice).alpha ∧
    (⟨6, 6, 6, 90, 90, 90, 216, matW⟩ : Lattice).alpha < 180 ∧
    0 < (⟨6, 6, 6, 90, 90, 90, 216, matW⟩ : Lattice).beta ∧
    (⟨6, 6, 6, 90, 90, 90, 216, matW⟩ : Lattice).beta < 180 ∧
    0 < (⟨6, 6, 6, 90, 90, 90, 216, matW⟩ : Lattice).gamma ∧
    (⟨6, 6, 6, 90, 90, 90, 216, matW⟩ : Lattice).gamma < 180 ∧
    |tripleProduct (latticeBasis ⟨6, 6, 6, 90, 90, 90, 216, matW⟩).1
        (latticeBasis ⟨6, 6, 6, 90, 90, 90, 216, matW⟩).2.1
        (latticeBasis ⟨6, 6, 6, 90, 90, 90, 216, matW⟩).2.2 -
        latticeVolume ⟨6, 6, 6, 90, 90, 90, 216, matW⟩| ≤
      1e-6 * latticeVolume ⟨6, 6, 6, 90, 90, 90, 216, matW⟩ :=
  ⟨by norm_num, by norm_num, by norm_num, by norm_num, by norm_num, by norm_num,
   by norm_num, by norm_num, by norm_num,
   spec_C7 ⟨6, 6, 6, 90, 90, 90, 216, matW⟩ (by norm_num) (by norm_num) (by norm_num)
     (by norm_num) (by norm_num) (by norm_num) (by norm_num) (by norm_num) (by norm_num)⟩

end MatExp
